import Mathlib

/-!
Verification of the eBus Thelia Condens decoder: a shallow embedding of the
byte-level protocol engine (CRC-8, escape handling, framing, telegram
structure parsing), the field codec and message registry, the sensor
aggregator, and the alert evaluator, together with theorems settling the
specified properties.

Machine integers are modelled as `Nat` with explicit `% 256` where the code
masks with `0xFF`; Python float quantities are modelled as `ℚ`; fallible
operations return `Option`.
-/

namespace Ebus

/-! ## CRC-8 engine (src/ebus_core/crc.py)

Polynomial 0x9B.  `EbusCRC.calculate` uses a 256-entry lookup table built by
running 8 shift rounds on each byte value; `EbusCRC.calculate_alt` is the
direct bit-serial variant. -/

/-- One shift round of the CRC-8 register: shift left, and conditionally XOR
with the generator polynomial 0x9B when the high bit was set; masked to 8
bits (`& 0xFF` in the source, written here as `% 256`). -/
def crc8Round (crc : Nat) : Nat :=
  if crc &&& 0x80 ≠ 0 then ((crc <<< 1) ^^^ 0x9B) % 256
  else (crc <<< 1) % 256

/-- Eight shift rounds applied to a register preset to the byte value:
one entry of the lookup table (`EbusCRC._init_table`). -/
def crc8Byte (b : Nat) : Nat := crc8Round^[8] b

/-- The 256-entry CRC lookup table (`EbusCRC._init_table`). -/
def crcTable : List Nat := (List.range 256).map crc8Byte

namespace EbusCRC

/-- Table-driven CRC-8 (`EbusCRC.calculate`): per input byte, index the
table with the XOR of the running register and the byte. -/
def calculate (data : List Nat) : Nat :=
  data.foldl (fun crc b => crcTable.getD (crc ^^^ b) 0) 0

/-- Bit-serial CRC-8 (`EbusCRC.calculate_alt`): per input byte, XOR into the
register and run 8 shift rounds. -/
def calculate_alt (data : List Nat) : Nat :=
  data.foldl (fun crc b => crc8Round^[8] (crc ^^^ b)) 0

end EbusCRC

/-- The shift round keeps the register below 256. -/
theorem crc8Round_lt (c : Nat) : crc8Round c < 256 := by
  unfold crc8Round
  split <;> exact Nat.mod_lt _ (by norm_num)

/-- Eight rounds keep the register below 256. -/
theorem crc8Byte_lt (b : Nat) : crc8Byte b < 256 := by
  unfold crc8Byte
  rw [show (8 : Nat) = 7 + 1 from rfl, Function.iterate_succ_apply']
  exact crc8Round_lt _

/-- Indexing the table below 256 evaluates the table construction rule. -/
theorem crcTable_getD (i : Nat) (h : i < 256) :
    crcTable.getD i 0 = crc8Byte i := by
  have hlen : i < crcTable.length := by
    simpa [crcTable] using h
  rw [List.getD_eq_getElem _ _ hlen]
  simp [crcTable]

/-- XOR of two bytes stays below 256. -/
theorem xor_lt_256 {a b : Nat} (ha : a < 256) (hb : b < 256) :
    a ^^^ b < 256 := by
  have := Nat.xor_lt_two_pow (n := 8) (by simpa using ha) (by simpa using hb)
  simpa using this

/-- Claim C2: for every byte sequence, the 256-entry lookup-table CRC-8 and
the direct bit-serial CRC-8 over polynomial 0x9B agree:
`EbusCRC.calculate b = EbusCRC.calculate_alt b`. -/
theorem calculate_eq_calculate_alt (data : List Nat)
    (h : ∀ b ∈ data, b < 256) :
    EbusCRC.calculate data = EbusCRC.calculate_alt data := by
  suffices H : ∀ (l : List Nat), (∀ b ∈ l, b < 256) → ∀ (c : Nat), c < 256 →
      l.foldl (fun crc b => crcTable.getD (crc ^^^ b) 0) c =
      l.foldl (fun crc b => crc8Round^[8] (crc ^^^ b)) c by
    exact H data h 0 (by norm_num)
  intro l
  induction l with
  | nil => intro _ c _; rfl
  | cons a t ih =>
    intro hl c hc
    have ha : a < 256 := hl a (List.mem_cons_self a t)
    have hx : c ^^^ a < 256 := xor_lt_256 hc ha
    simp only [List.foldl_cons]
    rw [crcTable_getD _ hx]
    exact ih (fun b hb => hl b (List.mem_cons_of_mem a hb)) _ (crc8Byte_lt _)

/-- Claim C2 witness: the two CRC strategies agree on a concrete frame. -/
theorem calculate_eq_calculate_alt_witness :
    (∀ b ∈ [0x10, 0x08, 0xB5, 0x11, 0x01, 0x01], b < 256) ∧
    EbusCRC.calculate [0x10, 0x08, 0xB5, 0x11, 0x01, 0x01] =
      EbusCRC.calculate_alt [0x10, 0x08, 0xB5, 0x11, 0x01, 0x01] :=
  ⟨by decide, calculate_eq_calculate_alt _ (by decide)⟩

/-! ## Escape handling (src/ebus_core/telegram.py, EscapeHandler)

Reserved bytes: delimiter 0xAA (SYNC) and escape 0xA9.  On the wire a
literal 0xA9 is sent as `0xA9 0x00` and a literal 0xAA as `0xA9 0x01`. -/

namespace EscapeHandler

/-- `EscapeHandler.unescape`: remove escape sequences.  `0xA9 0x00` becomes
`0xA9`, `0xA9 0x01` becomes `0xAA`; an `0xA9` followed by anything else, or
ending the input, is kept as-is and scanning resumes at the next byte. -/
def unescape : List Nat → List Nat
  | [] => []
  | a :: rest =>
    if a = 0xA9 then
      match rest with
      | b :: rest2 =>
        if b = 0x00 then 0xA9 :: unescape rest2
        else if b = 0x01 then 0xAA :: unescape rest2
        else a :: unescape (b :: rest2)
      | [] => [a]
    else a :: unescape rest

/-- `EscapeHandler.escape`: add escape sequences for transmission. -/
def escape : List Nat → List Nat
  | [] => []
  | a :: rest =>
    if a = 0xA9 then 0xA9 :: 0x00 :: escape rest
    else if a = 0xAA then 0xA9 :: 0x01 :: escape rest
    else a :: escape rest

end EscapeHandler

/-- Unescaping a pair `0xA9 0x00` emits a literal `0xA9`. -/
theorem unescape_escape_pair (l : List Nat) :
    EscapeHandler.unescape (0xA9 :: 0x00 :: l) = 0xA9 :: EscapeHandler.unescape l := by
  rw [EscapeHandler.unescape.eq_def]
  simp

/-- Unescaping a pair `0xA9 0x01` emits a literal `0xAA`. -/
theorem unescape_sync_pair (l : List Nat) :
    EscapeHandler.unescape (0xA9 :: 0x01 :: l) = 0xAA :: EscapeHandler.unescape l := by
  rw [EscapeHandler.unescape.eq_def]
  simp

/-- A byte other than the escape byte passes through unescaping. -/
theorem unescape_cons_of_ne (a : Nat) (l : List Nat) (h : a ≠ 0xA9) :
    EscapeHandler.unescape (a :: l) = a :: EscapeHandler.unescape l := by
  rw [EscapeHandler.unescape.eq_def]
  simp [h]

/-- Claim C3: for every byte sequence, including sequences containing the
delimiter byte 0xAA and the escape byte 0xA9,
`unescape (escape x) = x`. -/
theorem unescape_escape (x : List Nat) :
    EscapeHandler.unescape (EscapeHandler.escape x) = x := by
  induction x with
  | nil => rfl
  | cons a rest ih =>
    by_cases h9 : a = 0xA9
    · subst h9
      rw [EscapeHandler.escape, if_pos rfl, unescape_escape_pair, ih]
    · by_cases hA : a = 0xAA
      · subst hA
        rw [EscapeHandler.escape, if_neg (by norm_num), if_pos rfl,
          unescape_sync_pair, ih]
      · rw [EscapeHandler.escape, if_neg h9, if_neg hA,
          unescape_cons_of_ne a _ h9, ih]

/-! ## Telegram structure and parsing (src/ebus_core/telegram.py)

`timestamp` (wall-clock provenance) is omitted from the model; no verified
property depends on it. -/

/-- eBus telegram types (`TelegramType`). -/
inductive TelegramType where
  | BROADCAST
  | MASTER_MASTER
  | MASTER_SLAVE
deriving DecidableEq, Repr

/-- An eBus telegram (`EbusTelegram`): master header, payload, checksum,
optional slave response sub-record, classification and validity flags. -/
structure EbusTelegram where
  source : Nat := 0
  destination : Nat := 0
  primary_command : Nat := 0
  secondary_command : Nat := 0
  data : List Nat := []
  crc : Nat := 0
  slave_ack : Option Nat := none
  response_data : Option (List Nat) := none
  response_crc : Option Nat := none
  master_ack : Option Nat := none
  telegram_type : TelegramType := .BROADCAST
  valid : Bool := false
  crc_valid : Bool := false
  raw_bytes : List Nat := []
deriving DecidableEq, Repr

namespace TelegramParser

/-- `TelegramParser._parse_slave_response`: decode the slave portion of a
master-slave telegram.  Sets the handshake byte; on ACK reads the response
length, data and checksum, marking the telegram invalid on a response
checksum mismatch; a trailing byte, when present, is the master ACK. -/
def parseSlaveResponse (t : EbusTelegram) (d : List Nat) : EbusTelegram :=
  if d.length < 1 then t
  else
    let t := { t with slave_ack := some (d.getD 0 0) }
    if d.getD 0 0 ≠ 0x00 then t
    else if d.length < 2 then t
    else
      let response_len := d.getD 1 0
      if d.length < 2 + response_len + 1 then t
      else
        let rdata := (d.drop 2).take response_len
        let rcrc := d.getD (2 + response_len) 0
        let t := { t with response_data := some rdata, response_crc := some rcrc }
        let expected_crc := EbusCRC.calculate (response_len :: rdata)
        let t := if rcrc ≠ expected_crc then { t with valid := false } else t
        if d.length > 2 + response_len + 1 then
          { t with master_ack := some (d.getD (2 + response_len + 1) 0) }
        else t

/-- `TelegramParser.parse`: parse one raw frame (escaped, delimiter-free)
into a telegram.  Unescapes, enforces the minimum length and the declared
payload length, verifies the master checksum, classifies the telegram, and
parses a slave response when trailing bytes are present.  Mirrors the
source line order: the final assignment `valid := crc_valid` runs after
`parseSlaveResponse`, so a `valid := false` set there is overwritten. -/
def parse (raw_data : List Nat) : Option EbusTelegram :=
  let data := EscapeHandler.unescape raw_data
  if data.length < 6 then none
  else
    let t0 : EbusTelegram :=
      { source := data.getD 0 0
        destination := data.getD 1 0
        primary_command := data.getD 2 0
        secondary_command := data.getD 3 0
        raw_bytes := raw_data }
    let data_length := data.getD 4 0
    let expected_len := 5 + data_length + 1
    if data.length < expected_len then none
    else
      let crc_pos := 5 + data_length
      let t1 := { t0 with
        data := (data.drop 5).take data_length
        crc := data.getD crc_pos 0 }
      let expected_crc := EbusCRC.calculate (data.take crc_pos)
      let t2 := { t1 with crc_valid := decide (t1.crc = expected_crc) }
      let t3 :=
        if t2.destination = 0xFE then
          { t2 with telegram_type := .BROADCAST }
        else
          let remaining := data.drop (crc_pos + 1)
          if remaining.length > 0 then
            parseSlaveResponse { t2 with telegram_type := .MASTER_SLAVE } remaining
          else
            { t2 with telegram_type := .MASTER_MASTER }
      some { t3 with valid := t3.crc_valid }

/-- Position of the first SYNC byte 0xAA in a buffer (`bytearray.index`,
with the ValueError case modelled as `none`). -/
def syncIdx : List Nat → Option Nat
  | [] => none
  | a :: rest => if a = 0xAA then some 0 else (syncIdx rest).map (· + 1)

/-- `TelegramParser._extract_telegrams`, with explicit fuel standing for the
`while True` loop (each pass consumes at least one buffer byte, so fuel
`buffer.length + 1` always suffices).  Per pass: drop leading SYNC bytes;
stop on an empty buffer; when no SYNC remains, stop, trimming the buffer to
its last 256 bytes when it exceeds 512; otherwise the bytes before the SYNC
form one raw frame, which is parsed and collected when parsing succeeds. -/
def extractGo : Nat → List Nat → List EbusTelegram × List Nat
  | 0, buf => ([], buf)
  | fuel + 1, buf =>
    let b1 := buf.dropWhile (fun x => x == 0xAA)
    if b1 = [] then ([], b1)
    else
      match syncIdx b1 with
      | none =>
        if b1.length > 512 then ([], b1.drop (b1.length - 256)) else ([], b1)
      | some pos =>
        if pos > 0 then
          let raw := b1.take pos
          let r := extractGo fuel (b1.drop pos)
          match parse raw with
          | some t => (t :: r.1, r.2)
          | none => r
        else
          extractGo fuel b1

/-- `TelegramParser._extract_telegrams` with the always-sufficient fuel
`buffer.length + 1`. -/
def extractTelegrams (buf : List Nat) : List EbusTelegram × List Nat :=
  extractGo (buf.length + 1) buf

/-- `TelegramParser.feed`: append the chunk to the internal buffer and
extract complete telegrams, returning them with the retained buffer. -/
def feed (buffer data : List Nat) : List EbusTelegram × List Nat :=
  extractTelegrams (buffer ++ data)

end TelegramParser

/-! ### Framing lemmas

The `while` loop of `_extract_telegrams` is analysed through `extractGo`:
the fuel is irrelevant once it exceeds the buffer length, a leading SYNC
byte is skipped, a SYNC-free buffer within the safety ceiling is retained
unchanged, and a SYNC-terminated frame is split off and parsed. -/

/-- The head surviving `dropWhile (== 0xAA)` is not a SYNC byte. -/
theorem dropSync_head_ne (buf : List Nat) (a : Nat) (t : List Nat)
    (h : buf.dropWhile (fun x => x == 0xAA) = a :: t) : a ≠ 0xAA := by
  induction buf with
  | nil => simp at h
  | cons b bs ih =>
    rw [List.dropWhile_cons] at h
    by_cases hb : (b == 0xAA) = true
    · rw [if_pos hb] at h; exact ih h
    · rw [if_neg hb] at h
      injection h with h1 h2
      subst h1
      simpa using hb

/-- A SYNC-free buffer is unchanged by the leading-SYNC skip. -/
theorem dropSync_eq_self {buf : List Nat} (h : 0xAA ∉ buf) :
    buf.dropWhile (fun x => x == 0xAA) = buf := by
  cases buf with
  | nil => rfl
  | cons a t =>
    have ha : a ≠ 0xAA := fun hc => h (by simp [hc])
    rw [List.dropWhile_cons, if_neg (by simpa using ha)]

/-- A buffer opening with a nonempty SYNC-free frame is unchanged by the
leading-SYNC skip. -/
theorem dropSync_append {f : List Nat} (x : List Nat) (hne : f ≠ [])
    (hf : 0xAA ∉ f) : (f ++ x).dropWhile (fun y => y == 0xAA) = f ++ x := by
  cases f with
  | nil => exact absurd rfl hne
  | cons a t =>
    have ha : a ≠ 0xAA := fun hc => hf (by simp [hc])
    rw [List.cons_append, List.dropWhile_cons, if_neg (by simpa using ha)]

/-- A SYNC-free buffer has no SYNC position. -/
theorem syncIdx_of_not_mem {l : List Nat} (h : 0xAA ∉ l) :
    TelegramParser.syncIdx l = none := by
  induction l with
  | nil => rfl
  | cons a t ih =>
    have ha : a ≠ 0xAA := fun hc => h (by simp [hc])
    rw [TelegramParser.syncIdx, if_neg ha, ih (fun hm => h (List.mem_cons_of_mem a hm))]
    rfl

/-- The first SYNC after a SYNC-free prefix sits at the prefix length. -/
theorem syncIdx_append {f : List Nat} (r : List Nat) (hf : 0xAA ∉ f) :
    TelegramParser.syncIdx (f ++ 0xAA :: r) = some f.length := by
  induction f with
  | nil => simp [TelegramParser.syncIdx]
  | cons a t ih =>
    have ha : a ≠ 0xAA := fun hc => hf (by simp [hc])
    rw [List.cons_append, TelegramParser.syncIdx, if_neg ha,
      ih (fun hm => hf (List.mem_cons_of_mem a hm))]
    simp

/-- SYNC position zero means the buffer starts with a SYNC byte. -/
theorem syncIdx_zero {l : List Nat} (h : TelegramParser.syncIdx l = some 0) :
    ∃ t, l = 0xAA :: t := by
  cases l with
  | nil => simp [TelegramParser.syncIdx] at h
  | cons a t =>
    rw [TelegramParser.syncIdx] at h
    by_cases ha : a = 0xAA
    · exact ⟨t, by rw [ha]⟩
    · rw [if_neg ha] at h
      cases hs : TelegramParser.syncIdx t with
      | none => rw [hs] at h; simp at h
      | some k => rw [hs] at h; simp at h

/-- The loop result does not depend on the fuel once the fuel exceeds the
buffer length (every pass consumes at least one byte). -/
theorem extractGo_fuel : ∀ (n m : Nat) (buf : List Nat),
    buf.length < n → buf.length < m →
    TelegramParser.extractGo n buf = TelegramParser.extractGo m buf := by
  intro n
  induction n with
  | zero => intro m buf h1 _; exact absurd h1 (Nat.not_lt_zero _)
  | succ n ih =>
    intro m buf h1 h2
    cases m with
    | zero => exact absurd h2 (Nat.not_lt_zero _)
    | succ m =>
      simp only [TelegramParser.extractGo]
      by_cases hbe : buf.dropWhile (fun x => x == 0xAA) = []
      · rw [if_pos hbe, if_pos hbe]
      · rw [if_neg hbe, if_neg hbe]
        have hlb : (buf.dropWhile (fun x => x == 0xAA)).length ≤ buf.length :=
          (List.dropWhile_sublist _).length_le
        cases hs : TelegramParser.syncIdx (buf.dropWhile (fun x => x == 0xAA)) with
        | none => rfl
        | some pos =>
          by_cases hp : pos > 0
          · have hb1pos : 0 < (buf.dropWhile (fun x => x == 0xAA)).length :=
              List.length_pos.mpr hbe
            have hr : ((buf.dropWhile (fun x => x == 0xAA)).drop pos).length < n := by
              rw [List.length_drop]; omega
            have hr2 : ((buf.dropWhile (fun x => x == 0xAA)).drop pos).length < m := by
              rw [List.length_drop]; omega
            simp only [ih m _ hr hr2]
            rw [if_pos hp, if_pos hp]
          · exfalso
            have hpz : pos = 0 := by omega
            subst hpz
            obtain ⟨t, ht⟩ := syncIdx_zero hs
            exact dropSync_head_ne buf _ _ ht rfl

/-- A leading SYNC byte is skipped by extraction. -/
theorem extract_sync (buf : List Nat) :
    TelegramParser.extractTelegrams (0xAA :: buf) =
      TelegramParser.extractTelegrams buf := by
  show TelegramParser.extractGo (buf.length + 1 + 1) (0xAA :: buf) =
    TelegramParser.extractGo (buf.length + 1) buf
  have hstep : TelegramParser.extractGo (buf.length + 1 + 1) (0xAA :: buf) =
      TelegramParser.extractGo (buf.length + 1 + 1) buf := by
    simp only [TelegramParser.extractGo]
    rw [List.dropWhile_cons]
    norm_num
  rw [hstep]
  exact extractGo_fuel _ _ _ (by omega) (by omega)

/-- A SYNC-free buffer within the 512-byte ceiling yields no telegram and
is retained unchanged. -/
theorem extract_no_sync (buf : List Nat) (h : 0xAA ∉ buf)
    (hlen : buf.length ≤ 512) :
    TelegramParser.extractTelegrams buf = ([], buf) := by
  show TelegramParser.extractGo (buf.length + 1) buf = ([], buf)
  cases buf with
  | nil => rfl
  | cons a t =>
    simp only [TelegramParser.extractGo]
    rw [dropSync_eq_self h, if_neg (by simp), syncIdx_of_not_mem h]
    rw [if_neg (by simpa using hlen)]

/-- Extraction of a buffer beginning with a nonempty SYNC-free frame
followed by a SYNC parses that frame and continues on the remainder. -/
theorem extract_frame (f rest : List Nat) (hne : f ≠ []) (hf : 0xAA ∉ f) :
    TelegramParser.extractTelegrams (f ++ 0xAA :: rest) =
      match TelegramParser.parse f with
      | some t => (t :: (TelegramParser.extractTelegrams rest).1,
          (TelegramParser.extractTelegrams rest).2)
      | none => TelegramParser.extractTelegrams rest := by
  have hlen : (f ++ 0xAA :: rest).length = f.length + rest.length + 1 := by
    simp [List.length_append]; omega
  show TelegramParser.extractGo ((f ++ 0xAA :: rest).length + 1) (f ++ 0xAA :: rest) = _
  have hfpos : 0 < f.length := List.length_pos.mpr hne
  simp only [TelegramParser.extractGo]
  rw [dropSync_append (0xAA :: rest) hne hf,
    if_neg (by simp), syncIdx_append rest hf]
  simp only []
  rw [if_pos hfpos, List.take_left, List.drop_left]
  have hfuel : TelegramParser.extractGo (f ++ 0xAA :: rest).length (0xAA :: rest) =
      TelegramParser.extractTelegrams (0xAA :: rest) := by
    apply extractGo_fuel
    · simp [hlen]; omega
    · simp
  rw [hfuel, extract_sync]

/-- Claim C4: feeding two complete back-to-back delimited frames returns
the two telegrams in arrival order (with or without trailing partial
bytes); a trailing frame with no closing delimiter yields no telegram and
its bytes are retained in the buffer, so that a later `feed` call carrying
the rest of the frame and its delimiter completes it. -/
theorem feed_two_frames_then_partial (f1 f2 p q : List Nat)
    (t1 t2 t3 : EbusTelegram)
    (hf1 : f1 ≠ [] ∧ 0xAA ∉ f1 ∧ TelegramParser.parse f1 = some t1)
    (hf2 : f2 ≠ [] ∧ 0xAA ∉ f2 ∧ TelegramParser.parse f2 = some t2)
    (hp : p ≠ [] ∧ 0xAA ∉ p ∧ p.length ≤ 512)
    (hq : 0xAA ∉ q ∧ TelegramParser.parse (p ++ q) = some t3) :
    TelegramParser.feed [] (f1 ++ 0xAA :: f2 ++ [0xAA]) = ([t1, t2], []) ∧
    TelegramParser.feed [] (f1 ++ 0xAA :: f2 ++ 0xAA :: p) = ([t1, t2], p) ∧
    TelegramParser.feed p (q ++ [0xAA]) = ([t3], []) := by
  refine ⟨?_, ?_, ?_⟩
  · show TelegramParser.extractTelegrams ([] ++ (f1 ++ 0xAA :: f2 ++ [0xAA])) = _
    rw [List.nil_append,
      show f1 ++ 0xAA :: f2 ++ [0xAA] = f1 ++ 0xAA :: (f2 ++ 0xAA :: ([] : List Nat))
        from by simp]
    rw [extract_frame f1 _ hf1.1 hf1.2.1, hf1.2.2,
      extract_frame f2 _ hf2.1 hf2.2.1, hf2.2.2,
      extract_no_sync [] (by simp) (by simp)]
  · show TelegramParser.extractTelegrams ([] ++ (f1 ++ 0xAA :: f2 ++ 0xAA :: p)) = _
    rw [List.nil_append,
      show f1 ++ 0xAA :: f2 ++ 0xAA :: p = f1 ++ 0xAA :: (f2 ++ 0xAA :: p)
        from by simp]
    rw [extract_frame f1 _ hf1.1 hf1.2.1, hf1.2.2,
      extract_frame f2 _ hf2.1 hf2.2.1, hf2.2.2,
      extract_no_sync p hp.2.1 hp.2.2]
  · show TelegramParser.extractTelegrams (p ++ (q ++ [0xAA])) = _
    rw [show p ++ (q ++ [0xAA]) = (p ++ q) ++ 0xAA :: ([] : List Nat) from by simp]
    have hne : p ++ q ≠ [] := by
      cases hp' : p with
      | nil => exact absurd hp' hp.1
      | cons a t => simp
    have hnm : 0xAA ∉ p ++ q := by
      rw [List.mem_append]
      push_neg
      exact ⟨hp.2.1, hq.1⟩
    rw [extract_frame _ _ hne hnm, hq.2,
      extract_no_sync [] (by simp) (by simp)]

/-- Claim C4 witness: two concrete broadcast frames fed back-to-back, and a
concrete master-master frame split across two `feed` calls. -/
theorem feed_two_frames_then_partial_witness :
    TelegramParser.feed []
      ([0x10, 0xFE, 0x05, 0x07, 0x04, 0x00, 0x48, 0x12, 0x80, 0x00] ++ 0xAA ::
        [0x10, 0xFE, 0x05, 0x07, 0x04, 0x00, 0x48, 0x12, 0x80, 0x00] ++ [0xAA])
      = ([{ source := 0x10, destination := 0xFE, primary_command := 0x05,
            secondary_command := 0x07, data := [0x00, 0x48, 0x12, 0x80],
            crc := 0x00, telegram_type := .BROADCAST, valid := false,
            crc_valid := false,
            raw_bytes := [0x10, 0xFE, 0x05, 0x07, 0x04, 0x00, 0x48, 0x12, 0x80, 0x00] },
          { source := 0x10, destination := 0xFE, primary_command := 0x05,
            secondary_command := 0x07, data := [0x00, 0x48, 0x12, 0x80],
            crc := 0x00, telegram_type := .BROADCAST, valid := false,
            crc_valid := false,
            raw_bytes := [0x10, 0xFE, 0x05, 0x07, 0x04, 0x00, 0x48, 0x12, 0x80, 0x00] }], []) ∧
    TelegramParser.feed [0x10, 0x08] ([0xB5, 0x09, 0x01, 0x05, 0xAF] ++ [0xAA])
      = ([{ source := 0x10, destination := 0x08, primary_command := 0xB5,
            secondary_command := 0x09, data := [0x05], crc := 0xAF,
            telegram_type := .MASTER_MASTER, valid := true, crc_valid := true,
            raw_bytes := [0x10, 0x08, 0xB5, 0x09, 0x01, 0x05, 0xAF] }], []) := by
  have h := feed_two_frames_then_partial
    [0x10, 0xFE, 0x05, 0x07, 0x04, 0x00, 0x48, 0x12, 0x80, 0x00]
    [0x10, 0xFE, 0x05, 0x07, 0x04, 0x00, 0x48, 0x12, 0x80, 0x00]
    [0x10, 0x08] [0xB5, 0x09, 0x01, 0x05, 0xAF]
    { source := 0x10, destination := 0xFE, primary_command := 0x05,
      secondary_command := 0x07, data := [0x00, 0x48, 0x12, 0x80],
      crc := 0x00, telegram_type := .BROADCAST, valid := false,
      crc_valid := false,
      raw_bytes := [0x10, 0xFE, 0x05, 0x07, 0x04, 0x00, 0x48, 0x12, 0x80, 0x00] }
    { source := 0x10, destination := 0xFE, primary_command := 0x05,
      secondary_command := 0x07, data := [0x00, 0x48, 0x12, 0x80],
      crc := 0x00, telegram_type := .BROADCAST, valid := false,
      crc_valid := false,
      raw_bytes := [0x10, 0xFE, 0x05, 0x07, 0x04, 0x00, 0x48, 0x12, 0x80, 0x00] }
    { source := 0x10, destination := 0x08, primary_command := 0xB5,
      secondary_command := 0x09, data := [0x05], crc := 0xAF,
      telegram_type := .MASTER_MASTER, valid := true, crc_valid := true,
      raw_bytes := [0x10, 0x08, 0xB5, 0x09, 0x01, 0x05, 0xAF] }
    ⟨by decide, by decide, by decide⟩
    ⟨by decide, by decide, by decide⟩
    ⟨by decide, by decide, by decide⟩
    ⟨by decide, by decide⟩
  exact ⟨h.1, h.2.2⟩

/-- Claim C1: feeding `AA 10 FE 05 07 04 00 48 12 80 00 AA` into the framer
yields exactly one telegram with source 0x10, destination 0xFE, primary
command 0x05, secondary command 0x07, data `[0x00, 0x48, 0x12, 0x80]` and
checksum byte 0x00, and that telegram is valid if and only if the CRC of
the nine header-and-data bytes equals 0x00.  (Concretely that CRC is 0x9E,
so both sides of the equivalence are false.) -/
theorem feed_single_frame :
    ∃ t : EbusTelegram,
      TelegramParser.feed []
        [0xAA, 0x10, 0xFE, 0x05, 0x07, 0x04, 0x00, 0x48, 0x12, 0x80, 0x00, 0xAA]
        = ([t], []) ∧
      t.source = 0x10 ∧ t.destination = 0xFE ∧
      t.primary_command = 0x05 ∧ t.secondary_command = 0x07 ∧
      t.data = [0x00, 0x48, 0x12, 0x80] ∧ t.crc = 0x00 ∧
      (t.valid = true ↔
        EbusCRC.calculate [0x10, 0xFE, 0x05, 0x07, 0x04, 0x00, 0x48, 0x12, 0x80]
          = 0x00) := by
  refine ⟨{ source := 0x10, destination := 0xFE, primary_command := 0x05,
            secondary_command := 0x07, data := [0x00, 0x48, 0x12, 0x80],
            crc := 0x00, telegram_type := .BROADCAST, valid := false,
            crc_valid := false,
            raw_bytes := [0x10, 0xFE, 0x05, 0x07, 0x04, 0x00, 0x48, 0x12, 0x80, 0x00] },
          ?_, rfl, rfl, rfl, rfl, rfl, rfl, ?_⟩
  · decide
  · decide

/-- Claim C5 (code bug evaluation): on the frame
`10 08 B5 09 01 05 AF 00 01 07 55` the slave response checksum 0x55 differs
from the expected checksum 0xE1 computed over `[response_length] ++
response_data`, and the partially decoded fields are all present, yet the
returned telegram has `valid = true`: the assignment `valid = crc_valid` at
the end of `parse` overwrites the `valid = False` that
`_parse_slave_response` had set on the mismatch. -/
theorem slave_crc_mismatch_not_invalidated :
    TelegramParser.parse [0x10, 0x08, 0xB5, 0x09, 0x01, 0x05, 0xAF, 0x00, 0x01, 0x07, 0x55]
      = some
        { source := 0x10, destination := 0x08, primary_command := 0xB5,
          secondary_command := 0x09, data := [0x05], crc := 0xAF,
          slave_ack := some 0x00, response_data := some [0x07],
          response_crc := some 0x55, master_ack := none,
          telegram_type := .MASTER_SLAVE, valid := true, crc_valid := true,
          raw_bytes := [0x10, 0x08, 0xB5, 0x09, 0x01, 0x05, 0xAF, 0x00, 0x01, 0x07, 0x55] } ∧
    EbusCRC.calculate [0x01, 0x07] = 0xE1 ∧ (0x55 : Nat) ≠ 0xE1 := by
  refine ⟨?_, ?_, by decide⟩
  · decide
  · decide

end Ebus

namespace Thelia

/-! ## Field codec and message registry (src/thelia/messages.py)

Python runtime values flowing out of `FieldDefinition.decode` are modelled
by `PyValue`, keeping the int/float distinction that the source relies on
(the factor is a float, so the linear transform always produces a float). -/

/-- Data types for message fields (`DataType`). -/
inductive DataType where
  | UINT8 | INT8 | UINT16 | INT16 | UINT32
  | DATA1B | DATA1C | DATA2B | DATA2C
  | BCD | BIT | BITS | BYTES | STRING
deriving DecidableEq, Repr

/-- A dynamically typed Python value as produced by the decoders: an int, a
float (modelled as ℚ), a bool, or a string. -/
inductive PyValue where
  | int (z : ℤ)
  | float (q : ℚ)
  | bool (b : Bool)
  | str (s : String)
deriving DecidableEq, Repr

/-- `data[o : o + k]` of a Python bytes slice. -/
def slice (data : List Nat) (o k : Nat) : List Nat := (data.drop o).take k

/-- Little-endian unsigned value of a byte slice (`int.from_bytes`,
little, unsigned). -/
def leBytes (bs : List Nat) : Nat := bs.foldr (fun b acc => b + 256 * acc) 0

/-- Little-endian signed value of a byte slice (`int.from_bytes`, little,
signed): two's complement over the slice width; the empty slice is 0. -/
def signedOf (bs : List Nat) : ℤ :=
  if bs.length = 0 then 0
  else if leBytes bs ≥ 2 ^ (8 * bs.length - 1) then
    (leBytes bs : ℤ) - 2 ^ (8 * bs.length)
  else (leBytes bs : ℤ)

/-- The lowercase hex digit for a nibble: codepoint 48 is the zero digit
and codepoint 87 + 10 the letter a. -/
def hexChar (n : Nat) : Char :=
  if n < 10 then Char.ofNat (48 + n) else Char.ofNat (87 + n)

/-- The uppercase hex digit for a nibble (codepoint 55 + 10 is A). -/
def hexCharUpper (n : Nat) : Char :=
  if n < 10 then Char.ofNat (48 + n) else Char.ofNat (55 + n)

/-- `bytes.hex()`: lowercase two-digit hex per byte. -/
def hexStr (bs : List Nat) : String :=
  String.mk (bs.foldr
    (fun b acc => hexChar (b / 16 % 16) :: hexChar (b % 16) :: acc)
    [])

/-- Python `f"{b:02X}"` for a byte value. -/
def hexUpper2 (b : Nat) : String :=
  String.mk [hexCharUpper (b / 16 % 16), hexCharUpper (b % 16)]

/-- `bytes.decode("ascii", errors="ignore").strip("\x00")`: keep bytes
below 0x80 as characters, then strip NUL characters from both ends. -/
def asciiIgnoreStripNul (bs : List Nat) : String :=
  let cs := (bs.filter (fun b => b < 0x80)).map Char.ofNat
  let cs := cs.dropWhile (fun c => c == Char.ofNat 0)
  let cs := (cs.reverse.dropWhile (fun c => c == Char.ofNat 0)).reverse
  String.mk cs

/-- Definition of a data field in a message (`FieldDefinition`).  The
source has no sentinel-skip flag: these are all its fields. -/
structure FieldDefinition where
  name : String
  offset : Nat
  data_type : DataType
  length : Nat := 1
  unit : String := ""
  description : String := ""
  bit_position : Nat := 0
  bit_count : Nat := 1
  factor : ℚ := 1
  offset_value : ℚ := 0
  values : List (ℤ × String) := []
deriving DecidableEq, Repr

/-- `FieldDefinition.decode`: decode one field from a byte buffer.  Guards
reject an offset at or past the end, and (except for bit types) a field
extending past the end.  The raw value is decoded per data type; the linear
transform `value * factor + offset_value` applies to int and float results
(producing a float, since the factor is a float in the source); the enum
`values` mapping applies only to an int result, which after the transform
can no longer occur — mirroring the source, where `raw_value` is always a
float by the time `isinstance(raw_value, int)` is tested. -/
def FieldDefinition.decode (f : FieldDefinition) (data : List Nat) : Option PyValue :=
  if f.offset ≥ data.length then none
  else if f.offset + f.length > data.length ∧
      f.data_type ≠ .BIT ∧ f.data_type ≠ .BITS then none
  else
    let raw_value : PyValue :=
      match f.data_type with
      | .UINT8 => .int (data.getD f.offset 0)
      | .INT8 => .int (signedOf [data.getD f.offset 0])
      | .UINT16 => .int (leBytes (slice data f.offset 2))
      | .INT16 => .int (signedOf (slice data f.offset 2))
      | .UINT32 => .int (leBytes (slice data f.offset 4))
      | .DATA1B => .float ((signedOf [data.getD f.offset 0] : ℚ) / 2)
      | .DATA1C => .float ((data.getD f.offset 0 : ℚ) / 2)
      | .DATA2B => .float ((signedOf (slice data f.offset 2) : ℚ) / 256)
      | .DATA2C => .float ((leBytes (slice data f.offset 2) : ℚ) / 256)
      | .BIT => .bool (((data.getD f.offset 0) >>> f.bit_position) &&& 1 = 1)
      | .BITS => .int (((data.getD f.offset 0) >>> f.bit_position) &&&
          ((1 <<< f.bit_count) - 1))
      | .BCD => .int ((((data.getD f.offset 0) >>> 4) * 10 +
          ((data.getD f.offset 0) &&& 0x0F) : ℕ) : ℤ)
      | .BYTES => .str (hexStr (slice data f.offset f.length))
      | .STRING => .str (asciiIgnoreStripNul (slice data f.offset f.length))
    let raw_value : PyValue :=
      match raw_value with
      | .int z => .float ((z : ℚ) * f.factor + f.offset_value)
      | .float q => .float (q * f.factor + f.offset_value)
      | v => v
    match raw_value with
    | .int z =>
      match f.values.lookup z with
      | some s => some (.str s)
      | none => some raw_value
    | v => some v

/-- The local `bcd` helper of `DataAggregator._extract_sensors`
(src/thelia/parser.py:318): split a byte into two nibbles and reject a
nibble above 9. -/
def aggBcd (b : Nat) : Option Nat :=
  let high := (b >>> 4) &&& 0x0F
  let low := b &&& 0x0F
  if high > 9 ∨ low > 9 then none
  else some (high * 10 + low)

/-- Claim C7 counterexample: decoding a `bcd` `FieldDefinition` on the byte
0xAF is not absent — `FieldDefinition.decode` has no nibble validity check
and returns `10 * 10 + 15 = 115` (as a float after the linear transform). -/
theorem bcd_field_invalid_nibble_not_absent :
    FieldDefinition.decode
      { name := "second", offset := 0, data_type := .BCD } [0xAF]
      = some (.float 115) := by
  with_unfolding_all rfl

/-- Claim C7 amended: the aggregator's local `bcd` helper splits a byte
into two decimal digits and yields absent when either nibble exceeds 9
(0x26 to 26, 0xAF to absent), while `FieldDefinition.decode` on a `bcd`
field returns `hi * 10 + lo` with no validity check, so 0x26 decodes to 26
but 0xAF decodes to 115 rather than absent. -/
theorem bcd_decode_split :
    aggBcd 0x26 = some 26 ∧ aggBcd 0xAF = none ∧
    FieldDefinition.decode
      { name := "second", offset := 0, data_type := .BCD } [0x26]
      = some (.float 26) ∧
    FieldDefinition.decode
      { name := "second", offset := 0, data_type := .BCD } [0xAF]
      = some (.float 115) := by
  refine ⟨by decide, by decide, by with_unfolding_all rfl, by with_unfolding_all rfl⟩

/-- Claim C8 counterexample: a one-byte `uint8` field whose raw byte is
0xFF decodes to the numeric value 255, not to absent; `FieldDefinition` has
no sentinel-skip flag that could enable skipping. -/
theorem uint8_ff_not_absent :
    FieldDefinition.decode
      { name := "modulation", offset := 0, data_type := .UINT8 } [0xFF]
      = some (.float 255) := by
  with_unfolding_all rfl

/-- Claim C8 amended: `FieldDefinition` has no sentinel-skip flag and
`FieldDefinition.decode` performs no sentinel handling: every in-range
one-byte `uint8` field with default factor and bias whose raw byte is 0xFF
decodes to the numeric value 255, and a 16-bit signed field on raw bytes
`FF FF` decodes to -1 rather than absent. -/
theorem decode_no_sentinel (f : FieldDefinition) (data : List Nat)
    (hf : f.data_type = .UINT8 ∧ f.length = 1 ∧ f.factor = 1 ∧ f.offset_value = 0)
    (hd : f.offset + 1 ≤ data.length ∧ data.getD f.offset 0 = 0xFF) :
    f.decode data = some (.float 255) ∧
    FieldDefinition.decode
      { name := "outdoor_raw", offset := 0, data_type := .INT16, length := 2 }
      [0xFF, 0xFF] = some (.float (-1)) := by
  obtain ⟨hft, hfl, hff, hfo⟩ := hf
  obtain ⟨hd1, hd2⟩ := hd
  constructor
  · unfold FieldDefinition.decode
    rw [if_neg (by omega)]
    rw [if_neg (by
      intro hcon
      obtain ⟨h1, h2⟩ := hcon
      rw [hfl] at h1
      omega)]
    rw [hft]
    simp only [hd2, hff, hfo]
    norm_num
  · with_unfolding_all rfl

/-- Claim C8 witness: a concrete one-byte field at offset 1 with raw byte
0xFF decodes to 255. -/
theorem decode_no_sentinel_witness :
    FieldDefinition.decode
      { name := "status_byte", offset := 1, data_type := .UINT8 } [0x00, 0xFF]
      = some (.float 255) :=
  (decode_no_sentinel
    { name := "status_byte", offset := 1, data_type := .UINT8 } [0x00, 0xFF]
    ⟨rfl, rfl, rfl, rfl⟩ ⟨by decide, by decide⟩).1

/-! ## Sensor aggregator (src/thelia/parser.py, DataAggregator)

`datetime` timestamps are modelled as rational seconds; `datetime.now()` is
passed explicitly as `now`. -/

/-- One stored sensor record (the dict written by
`DataAggregator._set_sensor`). -/
structure SensorEntry where
  value : PyValue
  unit : String
  timestamp : ℚ
  description : String
deriving DecidableEq, Repr

/-- One entry of the `DataAggregator.get_all_sensors` result. -/
structure SensorReading where
  value : PyValue
  unit : String
  age_seconds : ℚ
  description : String
deriving DecidableEq, Repr

/-- Python dict assignment `d[k] = v` on an association list: replace the
value at an existing key in place, else append. -/
def insertAssoc {α : Type} (k : String) (v : α) : List (String × α) → List (String × α)
  | [] => [(k, v)]
  | (k2, v2) :: rest =>
    if k2 = k then (k, v) :: rest else (k2, v2) :: insertAssoc k v rest

/-- `round(q, 1)` on the age in seconds.  Python rounds floats half to
even; at non-tie points this agrees with rounding to the nearest tenth,
which is what is modelled here. -/
def roundTenth (q : ℚ) : ℚ := (round (10 * q) : ℤ) / 10

/-- The sensor aggregator state (`DataAggregator.__init__`): the staleness
bound and the name-keyed sensor dict. -/
structure DataAggregator where
  max_age : ℚ := 300
  sensors : List (String × SensorEntry) := []
deriving DecidableEq, Repr

/-- `DataAggregator._set_sensor`: store or overwrite a named value. -/
def DataAggregator.set_sensor (a : DataAggregator) (name : String)
    (value : PyValue) (unit : String) (timestamp : ℚ) (description : String := "") :
    DataAggregator :=
  { a with sensors :=
      insertAssoc name ⟨value, unit, timestamp, description⟩ a.sensors }

/-- `DataAggregator.get_sensor`: the stored value, but only while its age
`now - timestamp` does not exceed `max_age`; a stale entry reads the same
as a missing one. -/
def DataAggregator.get_sensor (a : DataAggregator) (now : ℚ) (name : String) :
    Option PyValue :=
  match a.sensors.lookup name with
  | none => none
  | some e => if now - e.timestamp > a.max_age then none else some e.value

/-- `DataAggregator.get_all_sensors`: every currently fresh value together
with its unit, rounded age in seconds, and description. -/
def DataAggregator.get_all_sensors (a : DataAggregator) (now : ℚ) :
    List (String × SensorReading) :=
  a.sensors.filterMap (fun p =>
    if now - p.2.timestamp ≤ a.max_age then
      some (p.1, { value := p.2.value, unit := p.2.unit,
                   age_seconds := roundTenth (now - p.2.timestamp),
                   description := p.2.description })
    else none)

/-- Looking up a key right after a dict assignment yields the new value. -/
theorem lookup_insertAssoc {α : Type} (k : String) (v : α) :
    ∀ (l : List (String × α)), (insertAssoc k v l).lookup k = some v := by
  intro l
  induction l with
  | nil => simp [insertAssoc, List.lookup]
  | cons p rest ih =>
    obtain ⟨k2, v2⟩ := p
    rw [insertAssoc]
    by_cases hk : k2 = k
    · rw [if_pos hk]
      simp [List.lookup]
    · rw [if_neg hk]
      rw [List.lookup]
      have : (k == k2) = false := by
        simp [beq_iff_eq]
        exact fun hc => hk hc.symm
      rw [this]
      exact ih

/-- Claim C9: after a sensor is set with a value at time `t0`, reading it
at any `now` with `now - t0 ≤ max_age` returns the value, and at any `now`
with `now - t0 > max_age` returns absent — identical to reading a sensor
that was never set; and `get_all_sensors` returns exactly the currently
fresh values together with their age in seconds. -/
theorem sensor_freshness (a : DataAggregator) (nm : String) (t0 now : ℚ)
    (v : PyValue) (u d : String) :
    (now - t0 ≤ a.max_age →
      (a.set_sensor nm v u t0 d).get_sensor now nm = some v) ∧
    (now - t0 > a.max_age →
      (a.set_sensor nm v u t0 d).get_sensor now nm = none) ∧
    DataAggregator.get_sensor { max_age := a.max_age, sensors := [] } now nm = none ∧
    (∀ (name : String) (r : SensorReading),
      (name, r) ∈ a.get_all_sensors now ↔
        ∃ e : SensorEntry, (name, e) ∈ a.sensors ∧ now - e.timestamp ≤ a.max_age ∧
          r = { value := e.value, unit := e.unit,
                age_seconds := roundTenth (now - e.timestamp),
                description := e.description }) := by
  have hlk : ((a.set_sensor nm v u t0 d).sensors).lookup nm =
      some ⟨v, u, t0, d⟩ := lookup_insertAssoc nm _ a.sensors
  refine ⟨?_, ?_, rfl, ?_⟩
  · intro hfresh
    rw [DataAggregator.get_sensor, hlk]
    simp only []
    rw [if_neg (by
      show ¬ now - t0 > (a.set_sensor nm v u t0 d).max_age
      exact not_lt.mpr hfresh)]
  · intro hstale
    rw [DataAggregator.get_sensor, hlk]
    simp only []
    rw [show (a.set_sensor nm v u t0 d).max_age = a.max_age from rfl,
      if_pos hstale]
  · intro name r
    rw [DataAggregator.get_all_sensors, List.mem_filterMap]
    constructor
    · rintro ⟨⟨n2, e⟩, hmem, hf⟩
      by_cases hfresh : now - e.timestamp ≤ a.max_age
      · rw [if_pos hfresh] at hf
        injection hf with hf
        injection hf with hf1 hf2
        subst hf1
        exact ⟨e, hmem, hfresh, hf2.symm⟩
      · rw [if_neg hfresh] at hf
        exact absurd hf (by simp)
    · rintro ⟨e, hmem, hfresh, hr⟩
      exact ⟨(name, e), hmem, by rw [if_pos hfresh, hr]⟩

/-- Claim C9 witness: with `max_age = 300`, a value set at time 0 reads
back at time 299 and is absent at time 301, like a never-set sensor. -/
theorem sensor_freshness_witness :
    (DataAggregator.set_sensor { max_age := 300, sensors := [] } "x"
      (.int 10) "" 0 "").get_sensor 299 "x" = some (.int 10) ∧
    (DataAggregator.set_sensor { max_age := 300, sensors := [] } "x"
      (.int 10) "" 0 "").get_sensor 301 "x" = none ∧
    DataAggregator.get_sensor { max_age := (300 : ℚ), sensors := [] } 301 "x" = none :=
  ⟨(sensor_freshness { max_age := 300, sensors := [] } "x" 0 299
      (.int 10) "" "").1 (by norm_num),
   (sensor_freshness { max_age := 300, sensors := [] } "x" 0 301
      (.int 10) "" "").2.1 (by norm_num),
   (sensor_freshness { max_age := 300, sensors := [] } "x" 0 301
      (.int 10) "" "").2.2.1⟩

/-! ## Alert evaluator (src/thelia/alerts.py)

`Alert.message` (built by string formatting of floats) and the
`acknowledged` flag are omitted; no verified property depends on them.
`datetime.now()` is passed explicitly as `now`. -/

/-- An alert instance (`Alert`). -/
structure Alert where
  alert_type : String
  severity : String
  value : ℚ
  threshold : Option ℚ
  timestamp : ℚ
deriving DecidableEq, Repr

/-- An alert threshold rule (`AlertThreshold`); `alert_type` and
`severity` carry the enum value strings. -/
structure AlertThreshold where
  alert_type : String
  sensor_name : String
  min_value : Option ℚ := none
  max_value : Option ℚ := none
  severity : String := "warning"
  cooldown_seconds : ℚ := 300
deriving DecidableEq, Repr

/-- The alert manager state (`AlertManager.__init__`): the rule list, the
active alerts keyed by rule key, the history, and the per-key last
notification times. -/
structure AlertManager where
  thresholds : List AlertThreshold := []
  active : List (String × Alert) := []
  history : List Alert := []
  lastTime : List (String × ℚ) := []
deriving DecidableEq, Repr

/-- The two threshold tests of `check_sensors` (alerts.py:215-225): the
`min_value` test runs first, then the `max_value` test, the later test
overwriting the trigger threshold. -/
def triggeredPair (value : ℚ) (th : AlertThreshold) : Bool × Option ℚ :=
  let p1 : Bool × Option ℚ :=
    match th.min_value with
    | some mv => if value ≥ mv then (true, some mv) else (false, none)
    | none => (false, none)
  match th.max_value with
  | some mv => if value ≤ mv then (true, some mv) else p1
  | none => p1

/-- The rule key `f"{alert_type}_{severity}"` (alerts.py:229). -/
def alertKey (th : AlertThreshold) : String :=
  th.alert_type ++ "_" ++ th.severity

/-- The cooldown test of `check_sensors` (alerts.py:230-233). -/
def inCooldown (m : AlertManager) (key : String) (now cool : ℚ) : Bool :=
  match m.lastTime.lookup key with
  | some last => decide (now - last < cool)
  | none => false

/-- Alert creation and bookkeeping of `check_sensors` (alerts.py:235-253):
store under the rule key in the active dict, append to the history and the
returned list, and record the notification time. -/
def emitAlert (now value : ℚ) (tt : Option ℚ) (th : AlertThreshold)
    (acc : AlertManager × List Alert) : AlertManager × List Alert :=
  let alert : Alert := { alert_type := th.alert_type, severity := th.severity,
                         value := value, threshold := tt, timestamp := now }
  ({ acc.1 with active := insertAssoc (alertKey th) alert acc.1.active,
                history := acc.1.history ++ [alert],
                lastTime := insertAssoc (alertKey th) now acc.1.lastTime },
   acc.2 ++ [alert])

/-- One pass of the `check_sensors` loop for one threshold: skip an absent
sensor; when triggered and not in cooldown, emit the alert.  The loop has
no branch that removes an entry from the active dict. -/
def checkThreshold (sensors : List (String × ℚ)) (now : ℚ)
    (acc : AlertManager × List Alert) (th : AlertThreshold) : AlertManager × List Alert :=
  match sensors.lookup th.sensor_name with
  | none => acc
  | some value =>
    if (triggeredPair value th).1 then
      if inCooldown acc.1 (alertKey th) now th.cooldown_seconds then acc
      else emitAlert now value (triggeredPair value th).2 th acc
    else acc

/-- `AlertManager.check_sensors`: test every threshold against the sensor
snapshot (only the `value` entry of each sensor dict is consulted),
returning the new alerts and the updated manager. -/
def AlertManager.check_sensors (m : AlertManager) (sensors : List (String × ℚ))
    (now : ℚ) : AlertManager × List Alert :=
  m.thresholds.foldl (checkThreshold sensors now) (m, [])

/-- The default thresholds installed by
`AlertManager._setup_default_thresholds`, in registration order. -/
def defaultAlertManager : AlertManager :=
  { thresholds :=
      [ { alert_type := "low_pressure", sensor_name := "boiler.water_pressure",
          max_value := some 0.8, severity := "warning", cooldown_seconds := 600 },
        { alert_type := "low_pressure", sensor_name := "boiler.water_pressure",
          max_value := some 0.5, severity := "critical", cooldown_seconds := 300 },
        { alert_type := "high_pressure", sensor_name := "boiler.water_pressure",
          min_value := some 2.5, severity := "warning", cooldown_seconds := 600 },
        { alert_type := "high_pressure", sensor_name := "boiler.water_pressure",
          min_value := some 3.0, severity := "critical", cooldown_seconds := 300 },
        { alert_type := "no_condensing", sensor_name := "boiler.return_temperature",
          min_value := some 55.0, severity := "info", cooldown_seconds := 1800 },
        { alert_type := "high_return_temp", sensor_name := "boiler.return_temperature",
          min_value := some 65.0, severity := "warning", cooldown_seconds := 900 },
        { alert_type := "high_return_temp", sensor_name := "boiler.return_temperature",
          min_value := some 75.0, severity := "critical", cooldown_seconds := 300 } ] }

/-- One threshold pass leaves the active dict unchanged or performs one
keyed insertion — it never removes an entry. -/
theorem checkThreshold_active (sensors : List (String × ℚ)) (now : ℚ)
    (acc : AlertManager × List Alert) (th : AlertThreshold) :
    (checkThreshold sensors now acc th).1.active = acc.1.active ∨
    ∃ key al, (checkThreshold sensors now acc th).1.active =
      insertAssoc key al acc.1.active := by
  unfold checkThreshold
  cases sensors.lookup th.sensor_name with
  | none => exact Or.inl rfl
  | some value =>
    simp only []
    by_cases ht : (triggeredPair value th).1
    · rw [if_pos ht]
      by_cases hc : inCooldown acc.1 (alertKey th) now th.cooldown_seconds
      · rw [if_pos hc]; exact Or.inl rfl
      · rw [if_neg hc]
        exact Or.inr ⟨alertKey th, _, rfl⟩
    · rw [if_neg ht]; exact Or.inl rfl

/-- Key membership after a dict assignment: the inserted key plus all
previous keys. -/
theorem insertAssoc_keys_mem_iff {α : Type} (k k' : String) (v : α) :
    ∀ l : List (String × α),
      k' ∈ (insertAssoc k v l).map Prod.fst ↔ k' = k ∨ k' ∈ l.map Prod.fst := by
  intro l
  induction l with
  | nil => simp [insertAssoc]
  | cons p rest ih =>
    obtain ⟨k2, v2⟩ := p
    rw [insertAssoc]
    by_cases hk : k2 = k
    · subst hk
      rw [if_pos rfl]
      simp
    · rw [if_neg hk]
      simp only [List.map_cons, List.mem_cons, ih]
      tauto

/-- A dict assignment preserves distinctness of the keys. -/
theorem insertAssoc_keys_nodup {α : Type} (k : String) (v : α)
    (l : List (String × α)) (h : (l.map Prod.fst).Nodup) :
    ((insertAssoc k v l).map Prod.fst).Nodup := by
  induction l with
  | nil => simp [insertAssoc]
  | cons p rest ih =>
    obtain ⟨k2, v2⟩ := p
    rw [insertAssoc]
    simp only [List.map_cons, List.nodup_cons] at h
    by_cases hk : k2 = k
    · subst hk
      rw [if_pos rfl]
      simp only [List.map_cons, List.nodup_cons]
      exact h
    · rw [if_neg hk]
      simp only [List.map_cons, List.nodup_cons]
      refine ⟨?_, ih h.2⟩
      rw [insertAssoc_keys_mem_iff]
      push_neg
      exact ⟨hk, h.1⟩

/-- Over the whole threshold loop, key distinctness in the active dict is
preserved and every previously active key stays active. -/
theorem check_fold_invariant (sensors : List (String × ℚ)) (now : ℚ) :
    ∀ (ths : List AlertThreshold) (acc : AlertManager × List Alert),
    (acc.1.active.map Prod.fst).Nodup →
    (((ths.foldl (checkThreshold sensors now) acc).1.active.map Prod.fst).Nodup ∧
     ∀ k, k ∈ acc.1.active.map Prod.fst →
       k ∈ ((ths.foldl (checkThreshold sensors now) acc).1.active.map Prod.fst)) := by
  intro ths
  induction ths with
  | nil => intro acc h; exact ⟨h, fun k hk => hk⟩
  | cons th rest ih =>
    intro acc h
    rw [List.foldl_cons]
    rcases checkThreshold_active sensors now acc th with heq | ⟨key, al, heq⟩
    · obtain ⟨hn, hm⟩ := ih (checkThreshold sensors now acc th) (heq ▸ h)
      exact ⟨hn, fun k hk => hm k (by rw [heq]; exact hk)⟩
    · obtain ⟨hn, hm⟩ := ih (checkThreshold sensors now acc th)
        (by rw [heq]; exact insertAssoc_keys_nodup key al _ h)
      refine ⟨hn, fun k hk => hm k ?_⟩
      rw [heq]
      exact (insertAssoc_keys_mem_iff key k al _).mpr (Or.inr hk)

/-- Claim C6 counterexample: with the default thresholds, evaluating with
water pressure 0.5 activates the low-pressure warning alert, and the next
evaluation with pressure 0.9 — where the rule condition no longer holds —
leaves the active-alert dict completely unchanged: the alert is NOT
removed. -/
theorem low_pressure_alert_not_removed :
    ((((defaultAlertManager.check_sensors
          [("boiler.water_pressure", 0.5)] 0).1).check_sensors
          [("boiler.water_pressure", 0.9)] 1).1.active.lookup
        "low_pressure_warning").isSome = true ∧
    (((defaultAlertManager.check_sensors
          [("boiler.water_pressure", 0.5)] 0).1).check_sensors
          [("boiler.water_pressure", 0.9)] 1).1.active
      = ((defaultAlertManager.check_sensors
          [("boiler.water_pressure", 0.5)] 0).1).active := by
  constructor
  · with_unfolding_all rfl
  · with_unfolding_all rfl

/-- Claim C6 amended: at any time there is at most one active alert per
rule key (the active dict keys stay pairwise distinct through every
`check_sensors` evaluation), but an active alert is never removed by
`check_sensors` — once a key is active it remains active through every
later evaluation regardless of whether its condition still holds; removal
happens only through `clear_alert` or, for fault alerts, `check_fault_code`
with fault code 0. -/
theorem alert_keys_unique_and_never_cleared (m : AlertManager)
    (sensors : List (String × ℚ)) (now : ℚ)
    (h : (m.active.map Prod.fst).Nodup) :
    (((m.check_sensors sensors now).1.active.map Prod.fst).Nodup) ∧
    (∀ k, k ∈ m.active.map Prod.fst →
      k ∈ (m.check_sensors sensors now).1.active.map Prod.fst) := by
  unfold AlertManager.check_sensors
  exact check_fold_invariant sensors now m.thresholds (m, []) h

/-- Claim C6 witness: the invariant applied to the default manager for one
concrete evaluation. -/
theorem alert_keys_unique_and_never_cleared_witness :
    (((defaultAlertManager.check_sensors
        [("boiler.water_pressure", 0.5)] 0).1.active.map Prod.fst).Nodup) ∧
    (∀ k, k ∈ defaultAlertManager.active.map Prod.fst →
      k ∈ (defaultAlertManager.check_sensors
        [("boiler.water_pressure", 0.5)] 0).1.active.map Prod.fst) :=
  alert_keys_unique_and_never_cleared defaultAlertManager
    [("boiler.water_pressure", 0.5)] 0 (by decide)

/-! ## Message registry and Thelia parser (src/thelia/messages.py,
src/thelia/parser.py)

`ParsedMessage.timestamp` and the callback list are omitted; no verified
property depends on them. -/

/-- A complete message definition (`MessageDefinition`).  Note that the
source dataclass has no `response_fields` attribute, although
`TheliaParser.parse` reads one. -/
structure MessageDefinition where
  name : String
  primary_command : Nat
  secondary_command : Nat
  description : String := ""
  source_address : Option Nat := none
  fields : List FieldDefinition := []
deriving DecidableEq, Repr

/-- The registry `THELIA_MESSAGES` keyed by `(primary, secondary)`, in
registration order (all commands are distinct, so dict overwriting never
occurs). -/
def THELIA_MESSAGES : List ((Nat × Nat) × MessageDefinition) :=
  [ ((0x07, 0x00),
     { name := "datetime", primary_command := 0x07, secondary_command := 0x00,
       description := "Date and time broadcast",
       fields :=
        [ { name := "second", offset := 0, data_type := .BCD, description := "Seconds" },
          { name := "minute", offset := 1, data_type := .BCD, description := "Minutes" },
          { name := "hour", offset := 2, data_type := .BCD, description := "Hours" },
          { name := "day", offset := 3, data_type := .BCD, description := "Day" },
          { name := "month", offset := 4, data_type := .BCD, description := "Month" },
          { name := "year", offset := 5, data_type := .BCD, description := "Year (0-99)" },
          { name := "weekday", offset := 6, data_type := .UINT8, description := "Day of week" } ] }),
    ((0x05, 0x03),
     { name := "outside_temp", primary_command := 0x05, secondary_command := 0x03,
       description := "Outside temperature",
       fields :=
        [ { name := "outside_temp", offset := 0, data_type := .DATA2B,
            unit := "°C", description := "Outside temperature" } ] }),
    ((0x05, 0x07),
     { name := "flow_return_temp", primary_command := 0x05, secondary_command := 0x07,
       description := "Flow and return temperatures",
       fields :=
        [ { name := "flow_temp", offset := 0, data_type := .DATA2B,
            unit := "°C", description := "Flow temperature" },
          { name := "return_temp", offset := 2, data_type := .DATA2B,
            unit := "°C", description := "Return temperature" } ] }),
    ((0x05, 0x08),
     { name := "dhw_temps", primary_command := 0x05, secondary_command := 0x08,
       description := "DHW temperatures",
       fields :=
        [ { name := "dhw_temp", offset := 0, data_type := .DATA2B,
            unit := "°C", description := "DHW actual temperature" },
          { name := "dhw_setpoint", offset := 2, data_type := .DATA1C,
            unit := "°C", description := "DHW setpoint" } ] }),
    ((0x05, 0x09),
     { name := "room_temp", primary_command := 0x05, secondary_command := 0x09,
       description := "Room temperature from thermostat",
       fields :=
        [ { name := "room_temp", offset := 0, data_type := .DATA2B,
            unit := "°C", description := "Room temperature" },
          { name := "room_setpoint", offset := 2, data_type := .DATA1C,
            unit := "°C", description := "Room setpoint" } ] }),
    ((0x05, 0x01),
     { name := "status_flags", primary_command := 0x05, secondary_command := 0x01,
       description := "Boiler status flags",
       fields :=
        [ { name := "burner", offset := 0, data_type := .BIT, bit_position := 0,
            description := "Burner on/off" },
          { name := "pump", offset := 0, data_type := .BIT, bit_position := 1,
            description := "Pump running" },
          { name := "dhw_mode", offset := 0, data_type := .BIT, bit_position := 2,
            description := "DHW mode active" },
          { name := "heating_mode", offset := 0, data_type := .BIT, bit_position := 3,
            description := "Heating mode active" },
          { name := "flame", offset := 0, data_type := .BIT, bit_position := 4,
            description := "Flame detected" } ] }),
    ((0x05, 0x04),
     { name := "modulation", primary_command := 0x05, secondary_command := 0x04,
       description := "Burner modulation",
       fields :=
        [ { name := "modulation", offset := 0, data_type := .UINT8,
            unit := "%", description := "Modulation level" },
          { name := "power", offset := 1, data_type := .DATA1C,
            unit := "kW", description := "Current power" } ] }),
    ((0x05, 0x12),
     { name := "pressure", primary_command := 0x05, secondary_command := 0x12,
       description := "System water pressure",
       fields :=
        [ { name := "pressure", offset := 0, data_type := .DATA1C,
            unit := "bar", description := "Water pressure" } ] }),
    ((0x05, 0x10),
     { name := "error", primary_command := 0x05, secondary_command := 0x10,
       description := "Error status",
       fields :=
        [ { name := "error_code", offset := 0, data_type := .UINT8,
            description := "Error code" },
          { name := "error_state", offset := 1, data_type := .UINT8,
            values := [(0, "ok"), (1, "warning"), (2, "blocking"), (3, "locking")],
            description := "Error state" } ] }),
    ((0x07, 0x04),
     { name := "device_id", primary_command := 0x07, secondary_command := 0x04,
       description := "Device identification",
       fields :=
        [ { name := "manufacturer", offset := 0, data_type := .UINT8,
            values := [(0x11, "Vaillant"), (0x41, "Saunier Duval")],
            description := "Manufacturer ID" },
          { name := "device_id", offset := 1, data_type := .BYTES, length := 5,
            description := "Device ID" },
          { name := "sw_version", offset := 6, data_type := .UINT16,
            description := "Software version" } ] }),
    ((0xB5, 0x11),
     { name := "vaillant_status", primary_command := 0xB5, secondary_command := 0x11,
       description := "Vaillant status message",
       fields :=
        [ { name := "status_byte", offset := 0, data_type := .UINT8,
            description := "Status flags" } ] }),
    ((0xB5, 0x10),
     { name := "vaillant_temps", primary_command := 0xB5, secondary_command := 0x10,
       description := "Vaillant temperature data",
       fields :=
        [ { name := "temp1", offset := 0, data_type := .DATA2B, unit := "°C" },
          { name := "temp2", offset := 2, data_type := .DATA2B, unit := "°C" } ] }),
    ((0xB5, 0x09),
     { name := "vaillant_room", primary_command := 0xB5, secondary_command := 0x09,
       description := "Vaillant room temperature",
       fields :=
        [ { name := "room_temp", offset := 0, data_type := .DATA2B, unit := "°C" },
          { name := "setpoint", offset := 2, data_type := .DATA1C, unit := "°C" } ] }),
    ((0xB5, 0x04),
     { name := "vaillant_modulation", primary_command := 0xB5, secondary_command := 0x04,
       description := "Vaillant modulation",
       fields :=
        [ { name := "modulation", offset := 0, data_type := .UINT8, unit := "%" } ] }),
    ((0xB5, 0x16),
     { name := "vaillant_pressure", primary_command := 0xB5, secondary_command := 0x16,
       description := "Vaillant pressure",
       fields :=
        [ { name := "pressure", offset := 0, data_type := .DATA1C, unit := "bar" } ] }) ]

/-- `get_message_definition`: pure registry lookup by command bytes. -/
def getMessageDefinition (primary secondary : Nat) : Option MessageDefinition :=
  THELIA_MESSAGES.lookup (primary, secondary)

/-- The known-device address table `EBUS_ADDRESSES`. -/
def EBUS_ADDRESSES : List (Nat × String) :=
  [(0x00, "broadcast_0"), (0x08, "boiler"), (0x10, "mipro"),
   (0x15, "room_unit"), (0xFE, "broadcast")]

/-- `get_device_name`: the table entry, else `device_XX` with the address
in uppercase hex. -/
def get_device_name (addr : Nat) : String :=
  match EBUS_ADDRESSES.lookup addr with
  | some s => s
  | none => "device_" ++ hexUpper2 addr

/-- A decoded message (`ParsedMessage`). -/
structure ParsedMessage where
  name : String
  source : Nat
  destination : Nat
  source_name : String
  dest_name : String
  command : Nat × Nat
  query_data : List (String × PyValue) := []
  response_data : List (String × PyValue) := []
  units : List (String × String) := []
  raw_telegram : Option Ebus.EbusTelegram := none
deriving DecidableEq, Repr

/-- The parse counters (`TheliaParser.__init__`,
`self.stats = {"total": 0, "parsed": 0, "unknown": 0}`). -/
structure TheliaStats where
  total : Nat := 0
  parsed : Nat := 0
  unknown : Nat := 0
deriving DecidableEq, Repr

/-- The field loop of `TheliaParser.parse`: decode every field against the
payload, keeping present values and their units. -/
def decodeFields (fields : List FieldDefinition) (data : List Nat) :
    List (String × PyValue) × List (String × String) :=
  fields.foldl (fun acc fd =>
    match fd.decode data with
    | some v =>
      (insertAssoc fd.name v acc.1,
       if fd.unit ≠ "" then insertAssoc fd.name fd.unit acc.2 else acc.2)
    | none => acc) ([], [])

/-- `TheliaParser.parse`: count the telegram, decode it against the
registry, and notify.  An unknown command yields the pass-through
"unknown" record.  For a known command the query fields are decoded; then
the source reads `msg_def.response_fields` (parser.py:116), an attribute
`MessageDefinition` never defines, so whenever `telegram.response_data` is
truthy an `AttributeError` propagates — modelled as `none` — with the
stats as mutated so far: `total` incremented, `parsed` and `unknown` not. -/
def TheliaParser.parse (stats : TheliaStats) (t : Ebus.EbusTelegram) :
    TheliaStats × Option ParsedMessage :=
  let stats := { stats with total := stats.total + 1 }
  match getMessageDefinition t.primary_command t.secondary_command with
  | none =>
    let stats := { stats with unknown := stats.unknown + 1 }
    let raw_resp : String :=
      match t.response_data with
      | some r => if r ≠ [] then hexStr r else ""
      | none => ""
    (stats, some
      { name := "unknown", source := t.source, destination := t.destination,
        source_name := get_device_name t.source,
        dest_name := get_device_name t.destination,
        command := (t.primary_command, t.secondary_command),
        query_data := [("raw", .str (hexStr t.data))],
        response_data := if raw_resp ≠ "" then [("raw", .str raw_resp)] else [],
        units := [], raw_telegram := some t })
  | some md =>
    let qd := decodeFields md.fields t.data
    if (match t.response_data with | some r => decide (r ≠ []) | none => false) then
      (stats, none)
    else
      let stats := { stats with parsed := stats.parsed + 1 }
      (stats, some
        { name := md.name, source := t.source, destination := t.destination,
          source_name := get_device_name t.source,
          dest_name := get_device_name t.destination,
          command := (t.primary_command, t.secondary_command),
          query_data := qd.1, response_data := [], units := qd.2,
          raw_telegram := some t })

/-- Claim C10 (code bug evaluation): the command `(0x05, 0x07)` is
registered, and a telegram carrying it together with a non-empty slave
response makes `TheliaParser.parse` hit the undefined attribute
`msg_def.response_fields`: no `ParsedMessage` is produced and the stats
read total 1, parsed 0, unknown 0, violating
`total = parsed + unknown`. -/
theorem parse_stats_invariant_broken :
    (getMessageDefinition 0x05 0x07).isSome = true ∧
    TheliaParser.parse { total := 0, parsed := 0, unknown := 0 }
      { source := 0x10, destination := 0x08, primary_command := 0x05,
        secondary_command := 0x07, data := [], crc := 0,
        slave_ack := some 0, response_data := some [0x01],
        response_crc := some 0, telegram_type := .MASTER_SLAVE,
        valid := true, crc_valid := true, raw_bytes := [] }
      = ({ total := 1, parsed := 0, unknown := 0 }, none) := by
  constructor
  · with_unfolding_all rfl
  · with_unfolding_all rfl

end Thelia
